import Mathlib

/-!
Shallow embedding of the event-dispatch and credential-lifecycle subsystem of
the masked-email bot (Go sources: the Telegram delivery loop and the sqlite
adapter with its OAuth2 token source).

Conventions of the embedding:
* Go errors become constructors of explicit error types (`DomainError` for the
  sentinel errors of the `domain` package, `SqlError` for the errors the
  storage layer can hand to the adapter).
* Times are modelled as `Int` unix seconds; the zero value of `time.Time`
  is modelled as expiry `0`, matching `Time.IsZero`.
* External collaborators (the base `oauth2.TokenSource`, the outcome of a
  storage write) are passed in as explicit result values, so that a call to
  the embedded function corresponds to one call of the Go method under a
  fixed behaviour of its collaborators.
-/

namespace MaskedEmailBot

/-- An `oauth2.Token` (golang.org/x/oauth2): access token, refresh token and
expiry. `expiry = 0` models the zero `time.Time` (no expiry set). -/
structure OAuth2Token where
  accessToken : String
  refreshToken : String
  expiry : Int
  deriving Repr, DecidableEq

/-- `expiryDelta` of golang.org/x/oauth2: a token counts as expired 10 seconds
before its real expiry. -/
def expiryDelta : Int := 10

/-- `Token.expired` of golang.org/x/oauth2 at time `now`: false when no expiry
is set, otherwise true when `expiry - expiryDelta` is before `now`. -/
def tokenExpired (t : OAuth2Token) (now : Int) : Bool :=
  if t.expiry == 0 then false
  else decide (t.expiry - expiryDelta < now)

/-- `Token.Valid` of golang.org/x/oauth2 on a possibly-nil `*oauth2.Token`:
the pointer is non-nil, the access token is non-empty and it is not expired. -/
def tokenValid : Option OAuth2Token → Int → Bool
  | none, _ => false
  | some t, now => t.accessToken != "" && !(tokenExpired t now)

/-- Sentinel errors of the `domain` package as the adapter uses them
(`ErrNoUser`, `ErrNoState`, `ErrSqliteInternal`, `ErrSqliteUserAlreadyExists`),
plus an error produced by the wrapped base token source. -/
inductive DomainError where
  | noUser
  | noState
  | sqliteInternal
  | userAlreadyExists
  | baseTokenError (msg : String)
  deriving Repr, DecidableEq

/-- `domain.User` as the adapter reads and writes it: identity, the decoded
optional Fastmail credential bundle, and the language code. -/
structure User where
  telegramID : Int
  fastmailToken : Option OAuth2Token
  languageCode : String
  deriving Repr, DecidableEq

/-- Stands in for `json.Marshal` of an `oauth2.Token`. The concrete format is
irrelevant to every property proved below; only that it is a fixed serialized
form of the token. -/
def encodeToken (t : OAuth2Token) : String :=
  t.accessToken ++ "\n" ++ t.refreshToken ++ "\n" ++ toString t.expiry

/-- Stands in for `json.Unmarshal` into an `oauth2.Token` (used by
`adapter.GetUser` to decode the stored blob). -/
def decodeToken (s : String) : Option OAuth2Token :=
  match s.splitOn "\n" with
  | [a, r, e] => (e.toInt?).map fun n => ⟨a, r, n⟩
  | _ => none

/-- `json.Marshal(token)` as called inside `tokenSource.Token`. Marshalling an
`oauth2.Token` (a struct of strings and a time) cannot fail, so this always
succeeds; the error branch of the Go code is kept in the caller. -/
def jsonMarshalToken (t : OAuth2Token) : Except DomainError String :=
  .ok (encodeToken t)

/-- Observable outcome of one call to `tokenSource.Token`: the returned value
or error, how many times the wrapped base token source was called, and the
list of `UpdateToken` writes performed (identity, serialized token). -/
structure TokenCallResult where
  result : Except DomainError OAuth2Token
  baseCalls : Nat
  writes : List (Int × String)
  deriving Repr

/-- `tokenSource.Token` (sqlite adapter). `getUserResult` is what
`ts.database.GetUser(ts.telegramID)` returns, `baseTokenResult` what
`ts.baseTokenSource.Token()` would return if called, `updateTokenResult` what
`ts.database.UpdateToken` would return for the one possible write. The Go
code returns `user.FastmailToken` itself in the valid branch; `Valid()`
guarantees the pointer is non-nil there, so the `getD` default is never
used. -/
def tokenSourceToken (telegramID now : Int)
    (getUserResult : Except DomainError User)
    (baseTokenResult : Except DomainError OAuth2Token)
    (updateTokenResult : Except DomainError Unit) : TokenCallResult :=
  match getUserResult with
  | .error e => ⟨.error e, 0, []⟩
  | .ok user =>
    if tokenValid user.fastmailToken now then
      ⟨.ok (user.fastmailToken.getD ⟨"", "", 0⟩), 0, []⟩
    else
      match baseTokenResult with
      | .error e => ⟨.error e, 1, []⟩
      | .ok token =>
        match jsonMarshalToken token with
        | .error e => ⟨.error e, 1, []⟩
        | .ok b =>
          match updateTokenResult with
          | .error e => ⟨.error e, 1, [(telegramID, b)]⟩
          | .ok _ => ⟨.ok token, 1, [(telegramID, b)]⟩

/-! ### Telegram delivery loop (`delivery.ListenAndServe`) -/

/-- The parts of `tgbotapi.Message` the dispatch loop inspects: the sender's
language code, whether the message is a command (`IsCommand`), which command
(`Command`), and the raw text. -/
structure Message where
  languageCode : String
  isCommand : Bool
  command : String
  text : String
  deriving Repr, DecidableEq

/-- The parts of `tgbotapi.CallbackQuery` the loop inspects: the sender's
language code and the callback data payload. -/
structure CallbackQuery where
  languageCode : String
  data : String
  deriving Repr, DecidableEq

/-- The parts of `tgbotapi.InlineQuery` the loop inspects. -/
structure InlineQuery where
  languageCode : String
  query : String
  deriving Repr, DecidableEq

/-- A `tgbotapi.Update`: at most one of the three payloads is inspected, in
the order the Go `switch` tests them. -/
structure Update where
  message : Option Message
  callbackQuery : Option CallbackQuery
  inlineQuery : Option InlineQuery
  deriving Repr, DecidableEq

/-- The handler methods of `delivery` that the dispatch loop can invoke. -/
inductive Handler where
  | startCommand
  | anyOtherCommand
  | generateMaskedEmail
  | enableMaskedEmail
  | generateMaskedEmailWithInlineButton
  | answerInlineQueryWithEmail
  deriving Repr, DecidableEq

/-- Go's `strings.Split` for a one-character separator, modelled over the
character list of the string: splits at every occurrence of the separator.
The result list is never empty (splitting the empty string yields `[""]`). -/
def splitChars (sep : Char) : List Char → List (List Char)
  | [] => [[]]
  | c :: rest =>
    match splitChars sep rest with
    | [] => [[c]]
    | g :: gs =>
      if c == sep then [] :: g :: gs
      else (c :: g) :: gs

/-- `data[0]` after `data := strings.Split(update.CallbackData(), ":")`:
the first segment of the colon-split payload. Since the split is never
empty, the head default is never used. -/
def callbackDiscriminator (s : String) : String :=
  String.mk ((splitChars ':' s.data).headD [])

/-- The classification `switch` inside `delivery.ListenAndServe`: which
handler one update is dispatched to, `none` when the update falls through
every case (no payload, or an unrecognized callback discriminator). Go's
`switch data[0]` over string cases is sequential equality testing, modelled
by the if-chain. -/
def dispatch (u : Update) : Option Handler :=
  match u.message with
  | some m =>
    if m.isCommand then
      if m.command = "start" then some .startCommand
      else some .anyOtherCommand
    else some .generateMaskedEmail
  | none =>
    match u.callbackQuery with
    | some cq =>
      if callbackDiscriminator cq.data = "id" then some .enableMaskedEmail
      else if callbackDiscriminator cq.data = "prefix" then
        some .generateMaskedEmailWithInlineButton
      else none
    | none =>
      match u.inlineQuery with
      | some _ => some .answerInlineQueryWithEmail
      | none => none

/-- One iteration of the dispatch loop for one update, with `hr` giving the
error the invoked handler returns (`none` = the handler succeeds). Yields
the handler that was invoked (if any) and the error that was logged (if
any); an update that matches no case invokes nothing and logs nothing. -/
def routerStep (hr : Handler → Option String) (u : Update) :
    Option Handler × Option String :=
  match dispatch u with
  | none => (none, none)
  | some h => (some h, hr h)

/-- Trace of a run of `delivery.ListenAndServe` over a finite inbound
sequence: per update the handler invoked, and the errors logged along the
way. `ListenAndServe` itself returns `nil` once the updates channel closes. -/
structure RouterRun where
  invoked : List (Option Handler)
  logged : List String
  deriving Repr, DecidableEq

/-- The `for update := range updates` loop of `delivery.ListenAndServe` over
a finite inbound sequence; `hr i h` is the error handler `h` returns on the
`i`-th event. A handler error is logged and the loop moves to the next
event; the loop ends only when the sequence does. -/
def runRouter (hr : Nat → Handler → Option String) :
    Nat → List Update → RouterRun
  | _, [] => ⟨[], []⟩
  | i, u :: rest =>
    let step := routerStep (hr i) u
    let r := runRouter hr (i + 1) rest
    ⟨step.1 :: r.invoked,
     match step.2 with
     | some e => e :: r.logged
     | none => r.logged⟩

/-! ### Sqlite adapter (`adapter`) over a modelled store

The store itself (`database/sql` + go-sqlite3 + the migration-defined
schema) is an external collaborator; it is modelled by `DBState` and the
`exec…`/`scan…` functions below, following the documented semantics of
those libraries. The schema is modelled from the spec: `telegram_id` is the
unique identity of `users` (so a duplicate insert violates the primary key,
SQLITE_CONSTRAINT_PRIMARYKEY = 1555) and `state` is the key of
`oauth2_states`. `database/sql`'s `Row.Scan` reports an empty result set
with the sentinel `sql.ErrNoRows`. -/

/-- A row of the `users` table: `telegram_id`, nullable `fastmail_token`
blob, `lang`. -/
structure UserRow where
  telegramID : Int
  fastmailToken : Option String
  lang : String
  deriving Repr, DecidableEq

/-- A row of the `oauth2_states` table. -/
structure StateRow where
  state : String
  codeVerifier : String
  telegramID : Int
  deriving Repr, DecidableEq

/-- The two tables of the sqlite database. -/
structure DBState where
  users : List UserRow
  states : List StateRow
  deriving Repr, DecidableEq

/-- Errors the storage layer can hand to the adapter code:
`sql.ErrNoRows` (what `Row.Scan` returns on an empty result set —
a `database/sql` sentinel, distinct from every go-sqlite3 error);
a go-sqlite3 `sqlite3.Error` carrying its extended result code;
an error matching `errors.Is(err, sqlite3.ErrNotFound)`;
any other error value. -/
inductive SqlError where
  | noRows
  | sqliteError (extendedCode : Int)
  | sqliteNotFound
  | otherError
  deriving Repr, DecidableEq

/-- The duplicate-key test of `adapter.CreateUser`:
`errors.As(err, &sqliteErr) && sqliteErr.ExtendedCode == 1555`. -/
def isDuplicateKey : SqlError → Bool
  | .sqliteError code => code == 1555
  | _ => false

/-- The test `errors.Is(err, sqlite3.ErrNotFound)` used by `adapter.GetUser`
and `adapter.GetOAuth2State`. `sql.ErrNoRows` does not match it: it is a
distinct sentinel created by `errors.New` in `database/sql`, unrelated to
go-sqlite3's `ErrNotFound = ErrNo(12)`. -/
def isSqlite3ErrNotFound : SqlError → Bool
  | .sqliteNotFound => true
  | _ => false

/-- `INSERT INTO users (telegram_id, lang) VALUES (?, ?)` under the modelled
schema: fails with SQLITE_CONSTRAINT_PRIMARYKEY (extended code 1555) when a
row with this `telegram_id` exists, otherwise appends the row (token NULL). -/
def execInsertUser (s : DBState) (id : Int) (lang : String) :
    Option SqlError × DBState :=
  if s.users.any fun u => u.telegramID == id then
    (some (.sqliteError 1555), s)
  else
    (none, ⟨s.users ++ [⟨id, none, lang⟩], s.states⟩)

/-- The error classification of `adapter.CreateUser` applied to the outcome of the
insert: duplicate-key becomes `ErrSqliteUserAlreadyExists`, every other
error becomes `ErrSqliteInternal`. -/
def createUserClassify : Option SqlError → Except DomainError Unit
  | none => .ok ()
  | some e =>
    if isDuplicateKey e then .error .userAlreadyExists
    else .error .sqliteInternal

/-- `adapter.CreateUser`. -/
def adapterCreateUser (s : DBState) (id : Int) (lang : String) :
    Except DomainError Unit × DBState :=
  let r := execInsertUser s id lang
  (createUserClassify r.1, r.2)

/-- `QueryRow(SELECT telegram_id, fastmail_token, lang … WHERE telegram_id =
?)` followed by `Scan`: `sql.ErrNoRows` when no row matches. -/
def scanUserRow (s : DBState) (id : Int) : Except SqlError UserRow :=
  match s.users.find? fun u => u.telegramID == id with
  | some u => .ok u
  | none => .error .noRows

/-- `adapter.GetUser`: scan the row, map a `sqlite3.ErrNotFound`-matching
scan error to `ErrNoUser` and any other scan error to `ErrSqliteInternal`,
then decode the stored token blob when it is non-NULL (a decode failure is
`ErrSqliteInternal`). -/
def adapterGetUser (s : DBState) (id : Int) : Except DomainError User :=
  match scanUserRow s id with
  | .error e =>
    if isSqlite3ErrNotFound e then .error .noUser
    else .error .sqliteInternal
  | .ok row =>
    match row.fastmailToken with
    | none => .ok ⟨row.telegramID, none, row.lang⟩
    | some str =>
      match decodeToken str with
      | none => .error .sqliteInternal
      | some tok => .ok ⟨row.telegramID, some tok, row.lang⟩

/-- `INSERT INTO oauth2_states (state, code_verifier, telegram_id)` under the
modelled schema: constraint error when the nonce is already present,
otherwise appends the row. -/
def execInsertState (s : DBState) (st codeVerifier : String) (id : Int) :
    Option SqlError × DBState :=
  if s.states.any fun r => r.state == st then
    (some (.sqliteError 1555), s)
  else
    (none, ⟨s.users, s.states ++ [⟨st, codeVerifier, id⟩]⟩)

/-- `adapter.CreateOAuth2State`: any insert error at all becomes
`ErrSqliteInternal` (there is no duplicate-key branch here). -/
def adapterCreateOAuth2State (s : DBState) (st codeVerifier : String)
    (id : Int) : Except DomainError Unit × DBState :=
  match execInsertState s st codeVerifier id with
  | (none, s1) => (.ok (), s1)
  | (some _, s1) => (.error .sqliteInternal, s1)

/-- `QueryRow(SELECT code_verifier, telegram_id … WHERE state = ?)` followed
by `Scan`: `sql.ErrNoRows` when no row matches. -/
def scanStateRow (s : DBState) (st : String) : Except SqlError StateRow :=
  match s.states.find? fun r => r.state == st with
  | some r => .ok r
  | none => .error .noRows

/-- `adapter.GetOAuth2State`: the input nonce is copied into the result, the
verifier and owner are scanned from the row; a `sqlite3.ErrNotFound`-matching
scan error becomes `ErrNoState`, any other scan error `ErrSqliteInternal`. -/
def adapterGetOAuth2State (s : DBState) (st : String) :
    Except DomainError StateRow :=
  match scanStateRow s st with
  | .error e =>
    if isSqlite3ErrNotFound e then .error .noState
    else .error .sqliteInternal
  | .ok r => .ok ⟨st, r.codeVerifier, r.telegramID⟩

/-! ### Theorems about `tokenSource.Token` -/

/-- Claim C1: for a user whose stored credential bundle is present and not
expired (the `Token.Valid` test, which reads "a non-expired access token is
present"), `tokenSource.Token` returns that stored credential immediately:
zero calls to the wrapped base token source and zero `UpdateToken` writes,
whatever the base source and the store would have answered. -/
theorem token_valid_returns_stored_without_refresh
    (id now : Int) (u : User) (t : OAuth2Token)
    (base : Except DomainError OAuth2Token) (upd : Except DomainError Unit)
    (hTok : u.fastmailToken = some t)
    (hValid : tokenValid u.fastmailToken now = true) :
    tokenSourceToken id now (.ok u) base upd = ⟨.ok t, 0, []⟩ := by
  rw [hTok] at hValid
  simp [tokenSourceToken, hTok, hValid]

/-- Witness for C1 at a concrete valid credential. -/
theorem token_valid_returns_stored_without_refresh_witness :
    tokenSourceToken 1 100 (.ok ⟨1, some ⟨"acc", "ref", 0⟩, "en"⟩)
      (.error (.baseTokenError "down")) (.ok ()) =
      ⟨.ok ⟨"acc", "ref", 0⟩, 0, []⟩ :=
  token_valid_returns_stored_without_refresh 1 100
    ⟨1, some ⟨"acc", "ref", 0⟩, "en"⟩ ⟨"acc", "ref", 0⟩ _ _ rfl (by decide)

/-- Claim C2: for a user whose stored credential is absent or expired (the
`Token.Valid` test fails), `tokenSource.Token` calls the wrapped base token
source exactly once; and when that refresh and the subsequent persistence
both succeed, it performs exactly one `UpdateToken` write of the serialized
new credential and returns the refreshed credential. -/
theorem token_invalid_refreshes_once_and_persists
    (id now : Int) (u : User) (t : OAuth2Token)
    (base : Except DomainError OAuth2Token) (upd : Except DomainError Unit)
    (hInvalid : tokenValid u.fastmailToken now = false) :
    (tokenSourceToken id now (.ok u) base upd).baseCalls = 1 ∧
    (base = .ok t → upd = .ok () →
      tokenSourceToken id now (.ok u) base upd =
        ⟨.ok t, 1, [(id, encodeToken t)]⟩) := by
  constructor
  · cases base with
    | error e => simp [tokenSourceToken, hInvalid]
    | ok tok =>
      cases upd with
      | error e => simp [tokenSourceToken, hInvalid, jsonMarshalToken]
      | ok v => simp [tokenSourceToken, hInvalid, jsonMarshalToken]
  · rintro rfl rfl
    simp [tokenSourceToken, hInvalid, jsonMarshalToken]

/-- Witness for C2: no stored credential, refresh and persistence succeed. -/
theorem token_invalid_refreshes_once_and_persists_witness :
    tokenSourceToken 2 100 (.ok ⟨2, none, "en"⟩) (.ok ⟨"a", "r", 0⟩)
        (.ok ()) =
      ⟨.ok ⟨"a", "r", 0⟩, 1, [(2, encodeToken ⟨"a", "r", 0⟩)]⟩ :=
  (token_invalid_refreshes_once_and_persists 2 100 ⟨2, none, "en"⟩
    ⟨"a", "r", 0⟩ (.ok ⟨"a", "r", 0⟩) (.ok ()) rfl).2 rfl rfl

/-- Claim C3: when the base refresh succeeds but the `UpdateToken` write
fails, `tokenSource.Token` returns that failure and never returns the
refreshed credential as a success. -/
theorem token_persist_failure_fails_call
    (id now : Int) (u : User) (t : OAuth2Token) (e : DomainError)
    (hInvalid : tokenValid u.fastmailToken now = false) :
    (tokenSourceToken id now (.ok u) (.ok t) (.error e)).result =
      .error e ∧
    ∀ t2 : OAuth2Token,
      (tokenSourceToken id now (.ok u) (.ok t) (.error e)).result ≠
        .ok t2 := by
  constructor
  · simp [tokenSourceToken, hInvalid, jsonMarshalToken]
  · intro t2
    simp [tokenSourceToken, hInvalid, jsonMarshalToken]

/-- Witness for C3 at a concrete failing write. -/
theorem token_persist_failure_fails_call_witness :
    (tokenSourceToken 3 100 (.ok ⟨3, none, "en"⟩) (.ok ⟨"a", "r", 0⟩)
        (.error .sqliteInternal)).result = .error .sqliteInternal :=
  (token_persist_failure_fails_call 3 100 ⟨3, none, "en"⟩ ⟨"a", "r", 0⟩
    .sqliteInternal rfl).1

/-- Claim C4: when the initial `GetUser` fetch fails, `tokenSource.Token`
propagates that failure unchanged, makes no call to the base token source
and performs no write. -/
theorem token_getuser_failure_propagates
    (id now : Int) (e : DomainError)
    (base : Except DomainError OAuth2Token) (upd : Except DomainError Unit) :
    tokenSourceToken id now (.error e) base upd = ⟨.error e, 0, []⟩ := rfl

/-! ### Theorems about the sqlite adapter -/

/-- Claim C5, evaluated at the failing input: `GetOAuth2State` on a nonce
that was never created returns `ErrSqliteInternal`, not the `ErrNoState`
(NotFound) the claim promises — `Row.Scan` reports the empty result set as
`sql.ErrNoRows`, which the code's `errors.Is(err, sqlite3.ErrNotFound)`
test never matches. The create-then-get round trip half of the claim does
hold, shown in the last conjunct. -/
theorem getOAuth2State_unknown_nonce_internal :
    adapterGetOAuth2State ⟨[], []⟩ "deadbeef" =
      .error .sqliteInternal ∧
    adapterGetOAuth2State ⟨[], []⟩ "deadbeef" ≠ .error .noState ∧
    adapterGetOAuth2State
        (adapterCreateOAuth2State ⟨[], []⟩ "deadbeef" "ver" 42).2
        "deadbeef" = .ok ⟨"deadbeef", "ver", 42⟩ := by
  refine ⟨rfl, ?_, rfl⟩
  intro h
  rw [show adapterGetOAuth2State ⟨[], []⟩ "deadbeef" =
    Except.error DomainError.sqliteInternal from rfl] at h
  injection h with h1
  exact DomainError.noConfusion h1

/-- Claim C6, evaluated at the failing input: `GetUser` for an identity with
no stored row returns `ErrSqliteInternal`, not the `ErrNoUser` (NotFound)
the claim promises, for the same reason as in `GetOAuth2State`: the empty
result set surfaces as `sql.ErrNoRows`, which is not
`sqlite3.ErrNotFound`. The existing-identity half of the claim does hold,
shown in the last conjunct. -/
theorem getUser_missing_row_internal :
    adapterGetUser ⟨[], []⟩ 7 = .error .sqliteInternal ∧
    adapterGetUser ⟨[], []⟩ 7 ≠ .error .noUser ∧
    adapterGetUser ⟨[⟨7, none, "en"⟩], []⟩ 7 = .ok ⟨7, none, "en"⟩ := by
  refine ⟨rfl, ?_, rfl⟩
  intro h
  rw [show adapterGetUser ⟨[], []⟩ 7 =
    Except.error DomainError.sqliteInternal from rfl] at h
  injection h with h1
  exact DomainError.noConfusion h1

/-- Claim C7: from any store without a row for the identity, the first
`CreateUser` succeeds and leaves exactly one row for that identity, the
second `CreateUser` fails with `ErrSqliteUserAlreadyExists` (not
`ErrSqliteInternal`) and changes nothing; and any storage error other than
the duplicate-key condition is classified as `ErrSqliteInternal`. -/
theorem createUser_twice_one_row_alreadyExists
    (s : DBState) (id : Int) (lang lang2 : String)
    (hAbsent : s.users.countP (fun u => u.telegramID == id) = 0) :
    (adapterCreateUser s id lang).1 = .ok () ∧
    ((adapterCreateUser s id lang).2).users.countP
      (fun u => u.telegramID == id) = 1 ∧
    (adapterCreateUser (adapterCreateUser s id lang).2 id lang2).1 =
      .error .userAlreadyExists ∧
    (adapterCreateUser (adapterCreateUser s id lang).2 id lang2).2 =
      (adapterCreateUser s id lang).2 ∧
    (∀ e : SqlError, isDuplicateKey e = false →
      createUserClassify (some e) = .error .sqliteInternal) := by
  have hNone : (s.users.any fun u => u.telegramID == id) = false := by
    rw [List.any_eq_false]
    intro u hu
    exact List.countP_eq_zero.mp hAbsent u hu
  have hstep : adapterCreateUser s id lang =
      (.ok (), ⟨s.users ++ [⟨id, none, lang⟩], s.states⟩) := by
    simp [adapterCreateUser, execInsertUser, hNone, createUserClassify]
  rw [hstep]
  refine ⟨rfl, ?_, ?_, ?_, ?_⟩
  · simp [hAbsent]
  · simp [adapterCreateUser, execInsertUser, createUserClassify,
      isDuplicateKey]
  · simp [adapterCreateUser, execInsertUser]
  · intro e he
    simp [createUserClassify, he]

/-- Witness for C7 from the empty store at identity 5. -/
theorem createUser_twice_one_row_alreadyExists_witness :
    (adapterCreateUser ⟨[], []⟩ 5 "en").1 = .ok () ∧
    ((adapterCreateUser ⟨[], []⟩ 5 "en").2).users.countP
      (fun u => u.telegramID == 5) = 1 ∧
    (adapterCreateUser (adapterCreateUser ⟨[], []⟩ 5 "en").2 5 "de").1 =
      .error .userAlreadyExists ∧
    (adapterCreateUser (adapterCreateUser ⟨[], []⟩ 5 "en").2 5 "de").2 =
      (adapterCreateUser ⟨[], []⟩ 5 "en").2 ∧
    (∀ e : SqlError, isDuplicateKey e = false →
      createUserClassify (some e) = .error .sqliteInternal) :=
  createUser_twice_one_row_alreadyExists ⟨[], []⟩ 5 "en" "de" rfl

/-! ### Theorems about the dispatch loop -/

/-- Claim C8: for a callback-action event, the first segment of the
colon-split payload routes `"id"` to the enable-masked-email handler and
`"prefix"` to the prefix-based generation handler; any other discriminator
invokes no handler and produces no error (and no log entry). -/
theorem callback_dispatch_by_discriminator
    (cq : CallbackQuery) (hr : Handler → Option String) :
    (callbackDiscriminator cq.data = "id" →
      dispatch ⟨none, some cq, none⟩ = some .enableMaskedEmail) ∧
    (callbackDiscriminator cq.data = "prefix" →
      dispatch ⟨none, some cq, none⟩ =
        some .generateMaskedEmailWithInlineButton) ∧
    (callbackDiscriminator cq.data ≠ "id" →
      callbackDiscriminator cq.data ≠ "prefix" →
      dispatch ⟨none, some cq, none⟩ = none ∧
      routerStep hr ⟨none, some cq, none⟩ = (none, none)) := by
  refine ⟨?_, ?_, ?_⟩
  · intro h
    simp [dispatch, h]
  · intro h
    simp [dispatch, h]
  · intro h1 h2
    have hd : dispatch ⟨none, some cq, none⟩ = none := by
      simp [dispatch, h1, h2]
    exact ⟨hd, by simp [routerStep, hd]⟩

/-- Witness for C8 on the three payload shapes. -/
theorem callback_dispatch_by_discriminator_witness :
    dispatch ⟨none, some ⟨"en", "id:42"⟩, none⟩ =
      some .enableMaskedEmail ∧
    dispatch ⟨none, some ⟨"en", "prefix:shop"⟩, none⟩ =
      some .generateMaskedEmailWithInlineButton ∧
    (dispatch ⟨none, some ⟨"en", "bogus:1"⟩, none⟩ = none ∧
      routerStep (fun _ => some "boom") ⟨none, some ⟨"en", "bogus:1"⟩, none⟩ =
        (none, none)) :=
  ⟨(callback_dispatch_by_discriminator ⟨"en", "id:42"⟩
      (fun _ => some "boom")).1 (by decide),
   (callback_dispatch_by_discriminator ⟨"en", "prefix:shop"⟩
      (fun _ => some "boom")).2.1 (by decide),
   (callback_dispatch_by_discriminator ⟨"en", "bogus:1"⟩
      (fun _ => some "boom")).2.2 (by decide) (by decide)⟩

/-- The loop invokes one classification per inbound event, whatever the
handlers return: the trace is as long as the inbound sequence, so the loop
ends only when the sequence does. -/
theorem runRouter_invoked_length (hr : Nat → Handler → Option String)
    (i : Nat) (us : List Update) :
    (runRouter hr i us).invoked.length = us.length := by
  induction us generalizing i with
  | nil => rfl
  | cons u rest ih => simp [runRouter, ih]

/-- Claim C9: when the handler of the first of two queued events fails, the
error is logged and the second event is still classified and dispatched to
its handler; and for every inbound sequence the loop processes every event
(one trace entry per event), so it terminates only when the sequence
closes, never because a handler failed. -/
theorem handler_error_logged_next_event_processed
    (hr : Nat → Handler → Option String) (u1 u2 : Update)
    (h1 : Handler) (e : String)
    (hd : dispatch u1 = some h1) (he : hr 0 h1 = some e) :
    (runRouter hr 0 [u1, u2]).invoked = [some h1, dispatch u2] ∧
    e ∈ (runRouter hr 0 [u1, u2]).logged ∧
    (∀ us : List Update,
      (runRouter hr 0 us).invoked.length = us.length) := by
  have hstep1 : routerStep (hr 0) u1 = (some h1, some e) := by
    simp [routerStep, hd, he]
  have hstep2 : (routerStep (hr 1) u2).1 = dispatch u2 := by
    cases h : dispatch u2 <;> simp [routerStep, h]
  refine ⟨?_, ?_, fun us => runRouter_invoked_length hr 0 us⟩
  · simp [runRouter, hstep1, hstep2]
  · simp [runRouter, hstep1]

/-- Witness for C9: a failing `/start` handler followed by an inline query
that still reaches its handler. -/
theorem handler_error_logged_next_event_processed_witness :
    (runRouter (fun i _ => if i == 0 then some "boom" else none) 0
        [⟨some ⟨"en", true, "start", "/start"⟩, none, none⟩,
         ⟨none, none, some ⟨"en", "q"⟩⟩]).invoked =
      [some .startCommand, dispatch ⟨none, none, some ⟨"en", "q"⟩⟩] ∧
    "boom" ∈ (runRouter (fun i _ => if i == 0 then some "boom" else none) 0
        [⟨some ⟨"en", true, "start", "/start"⟩, none, none⟩,
         ⟨none, none, some ⟨"en", "q"⟩⟩]).logged ∧
    (∀ us : List Update,
      (runRouter (fun i _ => if i == 0 then some "boom" else none) 0
        us).invoked.length = us.length) :=
  handler_error_logged_next_event_processed
    (fun i _ => if i == 0 then some "boom" else none)
    ⟨some ⟨"en", true, "start", "/start"⟩, none, none⟩
    ⟨none, none, some ⟨"en", "q"⟩⟩ .startCommand "boom" (by decide) rfl

/-- Claim C10: an inbound event carrying no message, no callback query and
no inline query falls through the classification switch (which has no
default branch): no handler is invoked, nothing is logged, and the loop
proceeds to the rest of the sequence unchanged. -/
theorem empty_update_skipped
    (u : Update) (hm : u.message = none) (hc : u.callbackQuery = none)
    (hi : u.inlineQuery = none) (hr : Nat → Handler → Option String)
    (i : Nat) (rest : List Update) :
    dispatch u = none ∧
    routerStep (hr i) u = (none, none) ∧
    runRouter hr i (u :: rest) =
      ⟨none :: (runRouter hr (i + 1) rest).invoked,
       (runRouter hr (i + 1) rest).logged⟩ := by
  have hd : dispatch u = none := by
    simp [dispatch, hm, hc, hi]
  have hs : routerStep (hr i) u = (none, none) := by
    simp [routerStep, hd]
  exact ⟨hd, hs, by simp [runRouter, hs]⟩

/-- Witness for C10 on a payload-free event followed by an inline query. -/
theorem empty_update_skipped_witness :
    dispatch ⟨none, none, none⟩ = none ∧
    routerStep ((fun _ _ => some "x") 0) ⟨none, none, none⟩ =
      (none, none) ∧
    runRouter (fun _ _ => some "x") 0
        [⟨none, none, none⟩, ⟨none, none, some ⟨"en", "q"⟩⟩] =
      ⟨none :: (runRouter (fun _ _ => some "x") (0 + 1)
          [⟨none, none, some ⟨"en", "q"⟩⟩]).invoked,
       (runRouter (fun _ _ => some "x") (0 + 1)
          [⟨none, none, some ⟨"en", "q"⟩⟩]).logged⟩ :=
  empty_update_skipped ⟨none, none, none⟩ rfl rfl rfl
    (fun _ _ => some "x") 0 [⟨none, none, some ⟨"en", "q"⟩⟩]

end MaskedEmailBot
